import Mathlib

/-
Verification of the embedded logging facility declared in
src/services/inc/logging.h (category resolution, two-stage level
filtering, attribute capture, bounded formatting, hex dump, callback
dispatch and the PANIC fatal path).

The header is the only source file of the repository: the wrapper
macros, the LogLevel enum, the LogAttributes layout and the category
resolution expression are embedded directly from their definitions in
the header.  The bodies of the C functions that the header only
declares (log_message, log_write, log_printf, log_dump, log_enabled,
log_level_name, log_set_callbacks, log_init_attr) are not part of the
repository; those are modelled from the specification and marked as
such in their doc comments.

Observable behaviour is modelled as a list of LogEvent values: the
events record attribute-record construction, invocations of the three
backend callbacks and the transfer of control to the panic hook.
Machine integers (int, size_t, uint32_t) are modelled as Nat: every
value the logging API manipulates at the modelled call sites is small
and non-negative, and no arithmetic in the header can overflow.
-/

namespace Logging

/-! ## LogLevel (logging.h lines 127-146) -/

def LOG_LEVEL_ALL : Nat := 1

def LOG_LEVEL_TRACE : Nat := 1

def LOG_LEVEL_INFO : Nat := 30

def LOG_LEVEL_WARN : Nat := 40

def LOG_LEVEL_ERROR : Nat := 50

def LOG_LEVEL_PANIC : Nat := 60

def LOG_LEVEL_NONE : Nat := 70

/-- Compatibility level DEFAULT_LEVEL = 0 from the enum. -/
def DEFAULT_LEVEL : Nat := 0

def ALL_LEVEL : Nat := LOG_LEVEL_ALL

def TRACE_LEVEL : Nat := LOG_LEVEL_TRACE

def LOG_LEVEL : Nat := LOG_LEVEL_TRACE

def DEBUG_LEVEL : Nat := LOG_LEVEL_TRACE

def INFO_LEVEL : Nat := LOG_LEVEL_INFO

def WARN_LEVEL : Nat := LOG_LEVEL_WARN

def ERROR_LEVEL : Nat := LOG_LEVEL_ERROR

def PANIC_LEVEL : Nat := LOG_LEVEL_PANIC

def NO_LOG_LEVEL : Nat := LOG_LEVEL_NONE

/-- Whether a value is one of the named thresholds of the LogLevel
scale (TRACE/ALL = 1, INFO = 30, WARN = 40, ERROR = 50, PANIC = 60,
NONE = 70). -/
def isNamedThreshold (n : Nat) : Bool :=
  n = LOG_LEVEL_TRACE || n = LOG_LEVEL_INFO || n = LOG_LEVEL_WARN ||
    n = LOG_LEVEL_ERROR || n = LOG_LEVEL_PANIC || n = LOG_LEVEL_NONE

/-! ## LogAttributes (logging.h lines 149-156) -/

/-- sizeof(LogAttributes) on a 32-bit target (size_t + uint32_t + two
pointers + int + uint32_t, 4 bytes each).  The claims only use that the
same constant is stored unconditionally, never its numeric value. -/
def sizeofLogAttributes : Nat := 24

structure LogAttributes where
  size : Nat
  flags : Nat
  file : Option String
  line : Nat
  function : Option String
  time : Nat
deriving DecidableEq

/-! ## Backend registration (logging.h lines 158-166, 193-195)

log_set_callbacks stores three optional callbacks.  The message and
write callbacks are external effects: the model records whether each is
registered and emits an event when one is invoked.  The enabled
predicate returns a value the core consumes, so it is modelled as a
Lean function.  The opaque reserved pointer is threaded through the C
API unchanged and uninterpreted, so it is omitted from the model. -/

structure Backend where
  msgCb : Bool
  writeCb : Bool
  enabledCb : Option (Nat → Option String → Bool)

/-- Observable effects of the logging core: attribute-record
construction, the three backend callback invocations, and the transfer
of control to the panic hook. -/
inductive LogEvent where
  | attrInit (attr : LogAttributes)
  | messageCb (msg : List Char) (level : Nat) (category : Option String) (attr : LogAttributes)
  | writeCb (data : List Nat) (level : Nat) (category : Option String)
  | enabledCb (level : Nat) (category : Option String)
  | panicTransfer (code : Nat)
deriving DecidableEq

/-- An event is observable backend output when it invokes the message
or write callback. -/
def LogEvent.isOutput : LogEvent → Bool
  | LogEvent.messageCb _ _ _ _ => true
  | LogEvent.writeCb _ _ _ => true
  | _ => false

/-! ## Compile-time configuration surface (logging.h lines 206-212, 279-283) -/

/-- Value of the LOG_COMPILE_TIME_LEVEL macro: the build-supplied
definition when present, else LOG_LEVEL_ALL (logging.h lines 206-208). -/
def LOG_COMPILE_TIME_LEVEL (buildDefine : Option Nat) : Nat :=
  match buildDefine with
  | some v => v
  | none => LOG_LEVEL_ALL

/-- The preprocessor configuration a translation unit is compiled
with: the resolved LOG_COMPILE_TIME_LEVEL, the resolved
LOG_MAX_STRING_LENGTH (default 160), and whether
LOG_INCLUDE_SOURCE_INFO is defined. -/
structure BuildConfig where
  logCompileTimeLevel : Nat
  logMaxStringLength : Nat
  logIncludeSourceInfo : Bool

/-! ## Hex encoding (log_dump) -/

/-- Lowercase hex digit for a value below 16. -/
def hexDigitChar (n : Nat) : Char :=
  if n < 10 then Char.ofNat (48 + n) else Char.ofNat (87 + n)

/-- Lowercase hex encoding, two characters per byte, no separators. -/
def hexEncode : List Nat → List Char
  | [] => []
  | b :: rest => hexDigitChar (b / 16) :: hexDigitChar (b % 16) :: hexEncode rest

/-- Value of a lowercase hex digit (0 for characters outside
[0-9a-f]); inverse of hexDigitChar on digits. -/
def hexDigitVal (c : Char) : Nat :=
  if 48 ≤ c.toNat && c.toNat ≤ 57 then c.toNat - 48
  else if 97 ≤ c.toNat && c.toNat ≤ 102 then c.toNat - 87
  else 0

/-- Decoder for the hex encoding: consumes two characters per byte. -/
def hexDecode : List Char → List Nat
  | c1 :: c2 :: rest => (16 * hexDigitVal c1 + hexDigitVal c2) :: hexDecode rest
  | _ => []

/-! ## Declared logging functions (bodies not in the repository) -/

/-- Modelled from the spec: log_message (declared at logging.h line
169, body not in the repository) renders the format string and
arguments into a buffer bounded by maxLength characters including the
implicit terminator — so at most maxLength - 1 message characters,
truncating silently with no error — and forwards the rendered text with
level, category and attributes to the message callback.  If no message
callback is registered the call is a no-op and never falls back to the
write callback.  The rendering of printf-style formats is abstracted:
the argument is the string the format and arguments render to. -/
def log_message (maxLength level : Nat) (category : Option String)
    (attr : LogAttributes) (rendered : List Char) (b : Backend) : List LogEvent :=
  if b.msgCb then
    [LogEvent.messageCb (rendered.take (maxLength - 1)) level category attr]
  else []

/-- Modelled from the spec: log_write (declared at logging.h line 176,
body not in the repository) forwards the caller's bytes to the write
callback as is, bypassing formatting; no-op when unset. -/
def log_write (level : Nat) (category : Option String) (data : List Nat)
    (b : Backend) : List LogEvent :=
  if b.writeCb then [LogEvent.writeCb data level category] else []

/-- Modelled from the spec: log_printf (declared at logging.h line
179, body not in the repository) renders into the same bounded buffer
as log_message and forwards the rendered bytes to the write callback;
no-op when unset. -/
def log_printf (maxLength level : Nat) (category : Option String)
    (rendered : List Char) (b : Backend) : List LogEvent :=
  if b.writeCb then
    [LogEvent.writeCb ((rendered.take (maxLength - 1)).map Char.toNat) level category]
  else []

/-- Modelled from the spec: log_dump (declared at logging.h line 185,
body not in the repository) encodes the first size bytes of the buffer
as lowercase hex, two characters per byte with no separators for the
default flags = 0 the wrapper macros pass, reads nothing past size,
emits nothing for zero-length input, and forwards the encoding to the
write callback; no-op when unset.  Separator-requesting flag values are
outside the claims and not modelled. -/
def log_dump (level : Nat) (category : Option String) (data : List Nat)
    (size : Nat) (flags : Nat) (b : Backend) : List LogEvent :=
  if b.writeCb then
    if size = 0 then []
    else [LogEvent.writeCb ((hexEncode (data.take size)).map Char.toNat) level category]
  else []

/-- Modelled from the spec: log_enabled (declared at logging.h line
188, body not in the repository) delegates to the registered enabled
predicate with (level, category); with no predicate registered it
defaults to enabled (fail-open). -/
def log_enabled (level : Nat) (category : Option String) (b : Backend) : Bool :=
  match b.enabledCb with
  | some p => p level category
  | none => true

/-- Consultations of the enabled predicate performed by a log_enabled
call: one when a predicate is registered, none otherwise. -/
def log_enabledConsults (level : Nat) (category : Option String)
    (b : Backend) : List LogEvent :=
  match b.enabledCb with
  | some _ => [LogEvent.enabledCb level category]
  | none => []

/-- Modelled from the spec: log_level_name (declared at logging.h line
191, body not in the repository) is a pure total lookup from level
value to a short name, with a placeholder for unrecognized values. -/
def log_level_name (level : Nat) : String :=
  if level = LOG_LEVEL_TRACE then "TRACE"
  else if level = LOG_LEVEL_INFO then "INFO"
  else if level = LOG_LEVEL_WARN then "WARN"
  else if level = LOG_LEVEL_ERROR then "ERROR"
  else if level = LOG_LEVEL_PANIC then "PANIC"
  else if level = LOG_LEVEL_NONE then "NONE"
  else "?"

/-- Modelled from the spec: log_init_attr (declared at logging.h line
198, body not in the repository) captures the timestamp from the clock
source at call time; the remaining fields were set by the caller's
brace initializer and are left unchanged. -/
def log_init_attr (attr : LogAttributes) (now : Nat) : LogAttributes :=
  ⟨attr.size, attr.flags, attr.file, attr.line, attr.function, now⟩

/-! ## Attribute construction macros (logging.h lines 279-288) -/

/-- The _LOG_SOURCE_INFO token list: __FILE__, __LINE__,
__PRETTY_FUNCTION__ when LOG_INCLUDE_SOURCE_INFO is defined, else
NULL, 0, NULL (logging.h lines 279-283). -/
def _LOG_SOURCE_INFO (cfg : BuildConfig) (file : Option String) (line : Nat)
    (func : Option String) : Option String × Nat × Option String :=
  if cfg.logIncludeSourceInfo then (file, line, func) else (none, 0, none)

/-- The _LOG_INIT_ATTR macro (logging.h lines 286-288): brace-initializes
a LogAttributes with sizeof(LogAttributes), flags 0 and the source info
triple, then calls log_init_attr on it. -/
def _LOG_INIT_ATTR (cfg : BuildConfig) (file : Option String) (line : Nat)
    (func : Option String) (now : Nat) : LogAttributes :=
  log_init_attr
    ⟨sizeofLogAttributes, 0, (_LOG_SOURCE_INFO cfg file line func).1,
      (_LOG_SOURCE_INFO cfg file line func).2.1,
      (_LOG_SOURCE_INFO cfg file line func).2.2, 0⟩ now

/-! ## Wrapper macros (logging.h lines 291-329) -/

/-- The LOG_C macro (logging.h lines 291-297): if the level passes the
compile-time floor, construct attributes and call log_message; else the
guarded body is compiled out entirely. -/
def LOG_C (cfg : BuildConfig) (level : Nat) (category : Option String)
    (file : Option String) (line : Nat) (func : Option String) (now : Nat)
    (rendered : List Char) (b : Backend) : List LogEvent :=
  if cfg.logCompileTimeLevel ≤ level then
    LogEvent.attrInit (_LOG_INIT_ATTR cfg file line func now) ::
      log_message cfg.logMaxStringLength level category
        (_LOG_INIT_ATTR cfg file line func now) rendered b
  else []

/-- The LOG_WRITE_C macro (logging.h lines 299-304). -/
def LOG_WRITE_C (cfg : BuildConfig) (level : Nat) (category : Option String)
    (data : List Nat) (b : Backend) : List LogEvent :=
  if cfg.logCompileTimeLevel ≤ level then log_write level category data b
  else []

/-- The LOG_PRINT_C macro (logging.h lines 306-312): forwards the
string's bytes up to the first NUL (strlen semantics). -/
def LOG_PRINT_C (cfg : BuildConfig) (level : Nat) (category : Option String)
    (str : List Nat) (b : Backend) : List LogEvent :=
  if cfg.logCompileTimeLevel ≤ level then
    log_write level category (str.takeWhile (fun c => c ≠ 0)) b
  else []

/-- The LOG_PRINTF_C macro (logging.h lines 314-319). -/
def LOG_PRINTF_C (cfg : BuildConfig) (level : Nat) (category : Option String)
    (rendered : List Char) (b : Backend) : List LogEvent :=
  if cfg.logCompileTimeLevel ≤ level then
    log_printf cfg.logMaxStringLength level category rendered b
  else []

/-- The LOG_DUMP_C macro (logging.h lines 321-326): passes flags 0. -/
def LOG_DUMP_C (cfg : BuildConfig) (level : Nat) (category : Option String)
    (data : List Nat) (size : Nat) (b : Backend) : List LogEvent :=
  if cfg.logCompileTimeLevel ≤ level then log_dump level category data size 0 b
  else []

/-- The LOG_ENABLED_C macro (logging.h lines 328-329): the C expression
LOG_LEVEL >= LOG_COMPILE_TIME_LEVEL && log_enabled(...), with the
short-circuit of && made explicit as a conditional. -/
def LOG_ENABLED_C (cfg : BuildConfig) (level : Nat) (category : Option String)
    (b : Backend) : Bool :=
  if cfg.logCompileTimeLevel ≤ level then log_enabled level category b
  else false

/-- Enabled-predicate consultations performed by a LOG_ENABLED_C call:
none at all when the level is below the compile-time floor, because &&
short-circuits before log_enabled is called. -/
def LOG_ENABLED_C_consults (cfg : BuildConfig) (level : Nat)
    (category : Option String) (b : Backend) : List LogEvent :=
  if cfg.logCompileTimeLevel ≤ level then log_enabledConsults level category b
  else []

/-- The PANIC macro (logging.h lines 384-388): LOG(PANIC, ...) followed
unconditionally by panic_(code, NULL, HAL_Delay_Microseconds).  The
category argument is the call site's resolved LOG_THIS_CATEGORY().
panic_ never returns, so the event trace ends at the transfer. -/
def PANIC (cfg : BuildConfig) (code : Nat) (category : Option String)
    (file : Option String) (line : Nat) (func : Option String) (now : Nat)
    (rendered : List Char) (b : Backend) : List LogEvent :=
  LOG_C cfg LOG_LEVEL_PANIC category file line func now rendered b ++
    [LogEvent.panicTransfer code]

/-! ## Category resolution (logging.h lines 254-277, C variant)

The C expression is
  (_log_category ? _log_category : (_log_source_category ? _log_source_category() : LOG_MODULE_CATEGORY)).
_log_category is a file-scope NULL constant shadowed by the block-scope
constants that LOG_CATEGORY declares; C name lookup selects the
declaration of the innermost enclosing scope that has one, and within a
scope the last definition is in effect.  That lookup is embedded as a
walk over the chain of enclosing scopes of the call site, innermost
first, each scope carrying the LOG_CATEGORY declarations it makes. -/

/-- Value of _log_category visible at a call site, given the chain of
enclosing scopes (innermost first) with each scope's LOG_CATEGORY
declarations in order: the last declaration of the innermost scope that
declares one; none if no scope does (the file-scope NULL default). -/
def scopeCategoryValue : List (List String) → Option String
  | [] => none
  | s :: outer =>
    match s.getLast? with
    | some c => some c
    | none => scopeCategoryValue outer

/-- The LOG_THIS_CATEGORY() expression (logging.h lines 274-275):
scope category if declared, else the source-file category if
LOG_SOURCE_CATEGORY was used, else LOG_MODULE_CATEGORY (NULL when the
build defines none, logging.h lines 216-219). -/
def LOG_THIS_CATEGORY (scopeCat sourceCat moduleCat : Option String) : Option String :=
  match scopeCat with
  | some c => some c
  | none =>
    match sourceCat with
    | some c => some c
    | none => moduleCat

/-- Lexical scope structure of a translation unit: each scope carries
its LOG_CATEGORY declarations and its child scopes. -/
inductive ScopeTree where
  | node (decls : List String) (children : List ScopeTree)

def ScopeTree.decls : ScopeTree → List String
  | ScopeTree.node ds _ => ds

def ScopeTree.children : ScopeTree → List ScopeTree
  | ScopeTree.node _ cs => cs

/-- Chain of enclosing scopes (innermost first) of the scope reached by
following the given child indices from the root; none if the path is
invalid. -/
def chainOf (t : ScopeTree) (path : List Nat) : Option (List (List String)) :=
  match path with
  | [] => some [t.decls]
  | i :: p =>
    match t.children.get? i with
    | some c => (chainOf c p).map (fun ch => ch ++ [t.decls])
    | none => none

/-- Category LOG_THIS_CATEGORY() resolves to at a call site in the
scope reached by path, for a given source-file and module category. -/
def resolveAt (t : ScopeTree) (path : List Nat) (sourceCat moduleCat : Option String) :
    Option (Option String) :=
  (chainOf t path).map
    (fun ch => LOG_THIS_CATEGORY (scopeCategoryValue ch) sourceCat moduleCat)

/-! ## Helper lemmas -/

theorem hexVal_hexDigitChar : ∀ n, n < 16 → hexDigitVal (hexDigitChar n) = n := by
  decide

theorem hexDigitChar_mem_digits :
    ∀ n, n < 16 → hexDigitChar n ∈ "0123456789abcdef".toList := by
  decide

theorem hexDecode_hexEncode (data : List Nat) (h : ∀ x ∈ data, x < 256) :
    hexDecode (hexEncode data) = data := by
  induction data with
  | nil => rfl
  | cons b rest ih =>
    have hb : b < 256 := h b (List.mem_cons_self b rest)
    have hdiv : b / 16 < 16 := by omega
    have hmod : b % 16 < 16 := Nat.mod_lt _ (by decide)
    have hrest : ∀ x ∈ rest, x < 256 := fun x hx => h x (List.mem_cons_of_mem _ hx)
    simp only [hexEncode, hexDecode, ih hrest,
      hexVal_hexDigitChar _ hdiv, hexVal_hexDigitChar _ hmod]
    have hb' : 16 * (b / 16) + b % 16 = b := by omega
    rw [hb']

theorem length_hexEncode (data : List Nat) :
    (hexEncode data).length = 2 * data.length := by
  induction data with
  | nil => rfl
  | cons b rest ih => simp [hexEncode, ih]; omega

theorem hexEncode_chars_lowercase (data : List Nat)
    (h : ∀ x ∈ data, x < 256) :
    ∀ c ∈ hexEncode data, c ∈ "0123456789abcdef".toList := by
  induction data with
  | nil => intro c hc; simp [hexEncode] at hc
  | cons b rest ih =>
    have hb : b < 256 := h b (List.mem_cons_self b rest)
    have hrest : ∀ x ∈ rest, x < 256 := fun x hx => h x (List.mem_cons_of_mem _ hx)
    intro c hc
    simp only [hexEncode, List.mem_cons] at hc
    rcases hc with h1 | h2 | h3
    · exact h1 ▸ hexDigitChar_mem_digits _ (by omega)
    · exact h2 ▸ hexDigitChar_mem_digits _ (Nat.mod_lt _ (by decide))
    · exact ih hrest c h3

/-! ## Claim theorems -/

/-- C1: LOG_THIS_CATEGORY() resolves to exactly one category following
the most-specific-wins chain (scope category if declared, else the
source-file category if declared, else the module category, else NULL);
a scope-level declaration does not change the category resolved in
sibling scopes (resolution depends only on the ancestor chain of the
call site); and redeclaring a category in the same scope is
last-declaration-wins. -/
theorem log_this_category_resolution :
    (∀ scopeCat sourceCat moduleCat : Option String,
      (∀ c, scopeCat = some c →
        LOG_THIS_CATEGORY scopeCat sourceCat moduleCat = some c) ∧
      (scopeCat = none → ∀ s, sourceCat = some s →
        LOG_THIS_CATEGORY scopeCat sourceCat moduleCat = some s) ∧
      (scopeCat = none → sourceCat = none →
        LOG_THIS_CATEGORY scopeCat sourceCat moduleCat = moduleCat)) ∧
    (∀ (ds : List String) (cs cs' : List ScopeTree) (i : Nat) (p : List Nat)
      (sourceCat moduleCat : Option String),
      cs.get? i = cs'.get? i →
      resolveAt (ScopeTree.node ds cs) (i :: p) sourceCat moduleCat =
        resolveAt (ScopeTree.node ds cs') (i :: p) sourceCat moduleCat) ∧
    (∀ (ds : List String) (c : String) (rest : List (List String)),
      scopeCategoryValue ((ds ++ [c]) :: rest) = some c) := by
  refine ⟨?_, ?_, ?_⟩
  · intro scopeCat sourceCat moduleCat
    refine ⟨?_, ?_, ?_⟩
    · intro c hc; subst hc; rfl
    · intro h s hs; subst h; subst hs; rfl
    · intro h hs; subst h; subst hs; rfl
  · intro ds cs cs' i p sourceCat moduleCat h
    simp only [resolveAt, chainOf, ScopeTree.children, ScopeTree.decls]
    rw [h]
  · intro ds c rest
    simp [scopeCategoryValue, List.getLast?_concat]

/-- C1 witness: resolution at concrete inputs — a declared scope
category wins over declared source and module categories; changing the
contents of a sibling scope leaves resolution unchanged; the last of
two declarations in the same scope wins. -/
theorem log_this_category_resolution_witness :
    LOG_THIS_CATEGORY (some "foo.bar.baz") (some "foo.bar") (some "foo") =
      some "foo.bar.baz" ∧
    resolveAt (ScopeTree.node [] [ScopeTree.node ["sib"] [], ScopeTree.node [] []])
        [1] (some "src.cat") none =
      resolveAt (ScopeTree.node [] [ScopeTree.node [] [], ScopeTree.node [] []])
        [1] (some "src.cat") none ∧
    scopeCategoryValue [["first.cat", "second.cat"]] = some "second.cat" := by
  refine ⟨?_, ?_, ?_⟩
  · exact (log_this_category_resolution.1 (some "foo.bar.baz") (some "foo.bar")
      (some "foo")).1 "foo.bar.baz" rfl
  · exact log_this_category_resolution.2.1 []
      [ScopeTree.node ["sib"] [], ScopeTree.node [] []]
      [ScopeTree.node [] [], ScopeTree.node [] []] 1 [] (some "src.cat") none rfl
  · exact log_this_category_resolution.2.2 ["first.cat"] "second.cat" []

/-- C2: for every level below the compile-time floor, each of the five
guarded wrapper macros produces no events at all: no backend
invocation, no attribute construction, no side effects. -/
theorem compile_time_floor_strips_all_effects (cfg : BuildConfig) (level : Nat)
    (category : Option String) (file : Option String) (line : Nat)
    (func : Option String) (now : Nat) (rendered : List Char)
    (data str : List Nat) (size : Nat) (b : Backend)
    (h : level < cfg.logCompileTimeLevel) :
    LOG_C cfg level category file line func now rendered b = [] ∧
    LOG_WRITE_C cfg level category data b = [] ∧
    LOG_PRINT_C cfg level category str b = [] ∧
    LOG_PRINTF_C cfg level category rendered b = [] ∧
    LOG_DUMP_C cfg level category data size b = [] := by
  have h' : ¬ cfg.logCompileTimeLevel ≤ level := Nat.not_le.mpr h
  exact ⟨if_neg h', if_neg h', if_neg h', if_neg h', if_neg h'⟩

/-- C2 witness: with floor INFO = 30, a TRACE = 1 call site with a
fully registered backend produces no events in any of the five
macros. -/
theorem compile_time_floor_strips_all_effects_witness :
    LOG_C ⟨30, 160, true⟩ 1 (some "net.tcp") (some "a.c") 7 (some "f") 5
        "hi".toList ⟨true, true, some fun _ _ => true⟩ = [] ∧
    LOG_WRITE_C ⟨30, 160, true⟩ 1 (some "net.tcp") [1, 2]
        ⟨true, true, some fun _ _ => true⟩ = [] ∧
    LOG_PRINT_C ⟨30, 160, true⟩ 1 (some "net.tcp") [104, 105]
        ⟨true, true, some fun _ _ => true⟩ = [] ∧
    LOG_PRINTF_C ⟨30, 160, true⟩ 1 (some "net.tcp") "hi".toList
        ⟨true, true, some fun _ _ => true⟩ = [] ∧
    LOG_DUMP_C ⟨30, 160, true⟩ 1 (some "net.tcp") [1, 2] 2
        ⟨true, true, some fun _ _ => true⟩ = [] :=
  compile_time_floor_strips_all_effects ⟨30, 160, true⟩ 1 (some "net.tcp")
    (some "a.c") 7 (some "f") 5 "hi".toList [1, 2] [104, 105] 2
    ⟨true, true, some fun _ _ => true⟩ (by decide)

/-- C3: LOG_ENABLED_C returns exactly the registered predicate's value
when the level is at or above the compile-time floor; returns true
(fail-open) when no predicate is registered and the level is at or
above the floor; and returns false when the level is below the floor
regardless of the predicate, which is then not consulted at all. -/
theorem log_enabled_filter_semantics (cfg : BuildConfig) (level : Nat)
    (category : Option String) (b : Backend) :
    (∀ p, b.enabledCb = some p → cfg.logCompileTimeLevel ≤ level →
      LOG_ENABLED_C cfg level category b = p level category) ∧
    (b.enabledCb = none → cfg.logCompileTimeLevel ≤ level →
      LOG_ENABLED_C cfg level category b = true) ∧
    (level < cfg.logCompileTimeLevel →
      LOG_ENABLED_C cfg level category b = false ∧
      LOG_ENABLED_C_consults cfg level category b = []) := by
  refine ⟨?_, ?_, ?_⟩
  · intro p hp hle
    simp [LOG_ENABLED_C, log_enabled, hp, hle]
  · intro hp hle
    simp [LOG_ENABLED_C, log_enabled, hp, hle]
  · intro hlt
    have h' : ¬ cfg.logCompileTimeLevel ≤ level := Nat.not_le.mpr hlt
    exact ⟨if_neg h', if_neg h'⟩

/-- C3 witness: with floor INFO = 30 — a WARN = 40 check returns the
registered predicate's value; a WARN check with no predicate returns
true; a TRACE = 1 check returns false and performs no predicate
consultation even though a predicate is registered. -/
theorem log_enabled_filter_semantics_witness :
    LOG_ENABLED_C ⟨30, 160, false⟩ 40 (some "net.tcp")
        ⟨true, true, some fun l _ => decide (50 ≤ l)⟩ = false ∧
    LOG_ENABLED_C ⟨30, 160, false⟩ 40 (some "net.tcp") ⟨true, true, none⟩ = true ∧
    LOG_ENABLED_C ⟨30, 160, false⟩ 1 (some "net.tcp")
        ⟨true, true, some fun _ _ => true⟩ = false ∧
    LOG_ENABLED_C_consults ⟨30, 160, false⟩ 1 (some "net.tcp")
        ⟨true, true, some fun _ _ => true⟩ = [] := by
  have h1 := log_enabled_filter_semantics ⟨30, 160, false⟩ 40 (some "net.tcp")
    ⟨true, true, some fun l _ => decide (50 ≤ l)⟩
  have h2 := log_enabled_filter_semantics ⟨30, 160, false⟩ 40 (some "net.tcp")
    ⟨true, true, none⟩
  have h3 := log_enabled_filter_semantics ⟨30, 160, false⟩ 1 (some "net.tcp")
    ⟨true, true, some fun _ _ => true⟩
  exact ⟨h1.1 _ rfl (by decide), h2.2.1 rfl (by decide),
    (h3.2.2 (by decide)).1, (h3.2.2 (by decide)).2⟩

/-- C4: with a message callback registered, log_message delivers to it
exactly one message: the rendered string byte-exact when its length
fits within maxLength - 1 (maxLength counts the implicit terminator),
else exactly maxLength - 1 characters; in both cases the delivered
text plus terminator never exceeds the maxLength buffer, and no error
is reported (the event is an ordinary delivery either way). -/
theorem log_message_truncation_boundary (maxLength level : Nat)
    (category : Option String) (attr : LogAttributes) (rendered : List Char)
    (b : Backend) (hmax : 1 ≤ maxLength) (hcb : b.msgCb = true) :
    ∃ d, log_message maxLength level category attr rendered b =
        [LogEvent.messageCb d level category attr] ∧
      (rendered.length ≤ maxLength - 1 → d = rendered) ∧
      (maxLength - 1 < rendered.length → d.length = maxLength - 1) ∧
      d.length + 1 ≤ maxLength := by
  refine ⟨rendered.take (maxLength - 1), ?_, ?_, ?_, ?_⟩
  · simp [log_message, hcb]
  · intro h; exact List.take_of_length_le h
  · intro h; simp [List.length_take]; omega
  · simp [List.length_take]; omega

/-- C4 witness: with a 6-character buffer, the 5-character message
"hello" is delivered byte-exact, and separately the 8-character message
"overlong" is delivered as exactly its first 5 characters. -/
theorem log_message_truncation_boundary_witness :
    (∃ d, log_message 6 30 (some "net.tcp") ⟨24, 0, none, 0, none, 5⟩
          "hello".toList ⟨true, false, none⟩ =
        [LogEvent.messageCb d 30 (some "net.tcp") ⟨24, 0, none, 0, none, 5⟩] ∧
      ("hello".toList.length ≤ 6 - 1 → d = "hello".toList) ∧
      (6 - 1 < "hello".toList.length → d.length = 6 - 1) ∧
      d.length + 1 ≤ 6) ∧
    (∃ d, log_message 6 30 (some "net.tcp") ⟨24, 0, none, 0, none, 5⟩
          "overlong".toList ⟨true, false, none⟩ =
        [LogEvent.messageCb d 30 (some "net.tcp") ⟨24, 0, none, 0, none, 5⟩] ∧
      ("overlong".toList.length ≤ 6 - 1 → d = "overlong".toList) ∧
      (6 - 1 < "overlong".toList.length → d.length = 6 - 1) ∧
      d.length + 1 ≤ 6) :=
  ⟨log_message_truncation_boundary 6 30 (some "net.tcp") ⟨24, 0, none, 0, none, 5⟩
      "hello".toList ⟨true, false, none⟩ (by decide) rfl,
    log_message_truncation_boundary 6 30 (some "net.tcp") ⟨24, 0, none, 0, none, 5⟩
      "overlong".toList ⟨true, false, none⟩ (by decide) rfl⟩

/-- C5: the hex dump encoding uses exactly two lowercase hex characters
per byte with no separators by default, decoding it reproduces the
input buffer exactly (for any byte buffer, including empty, all-0x00
and all-0xFF), log_dump emits nothing for zero-length input, reads no
byte past the declared size, and the bytes 0x00 0xFF 0x1A encode to the
string "00ff1a". -/
theorem log_dump_hex_roundtrip (level : Nat) (category : Option String)
    (data junk : List Nat) (size : Nat) (b : Backend)
    (hbytes : ∀ x ∈ data, x < 256) :
    hexDecode (hexEncode data) = data ∧
    (hexEncode data).length = 2 * data.length ∧
    (∀ c ∈ hexEncode data, c ∈ "0123456789abcdef".toList) ∧
    log_dump level category data 0 0 b = [] ∧
    (data.length = size →
      log_dump level category (data ++ junk) size 0 b =
        log_dump level category data size 0 b) ∧
    hexEncode [0, 255, 26] = "00ff1a".toList := by
  refine ⟨hexDecode_hexEncode data hbytes, length_hexEncode data,
    hexEncode_chars_lowercase data hbytes, ?_, ?_, by decide⟩
  · simp [log_dump]
  · intro hsize
    subst hsize
    have h1 : (data ++ junk).take data.length = data := List.take_left data junk
    have h2 : data.take data.length = data := List.take_length data
    simp [log_dump, h1, h2]

/-- C5 witness: round-trip, zero-length behaviour and the no-read-past
property at the concrete buffer [0x00, 0xFF, 0x1A] with trailing junk
byte 0x07 beyond the declared size. -/
theorem log_dump_hex_roundtrip_witness :
    hexDecode (hexEncode [0, 255, 26]) = [0, 255, 26] ∧
    log_dump 1 (some "net.tcp") [0, 255, 26] 0 0 ⟨false, true, none⟩ = [] ∧
    log_dump 1 (some "net.tcp") ([0, 255, 26] ++ [7]) 3 0 ⟨false, true, none⟩ =
      log_dump 1 (some "net.tcp") [0, 255, 26] 3 0 ⟨false, true, none⟩ := by
  have h := log_dump_hex_roundtrip 1 (some "net.tcp") [0, 255, 26] [7] 3
    ⟨false, true, none⟩ (by decide)
  exact ⟨h.1, h.2.2.2.1, h.2.2.2.2.1 (by decide)⟩

/-- C6 counterexample: the legacy alias DEFAULT_LEVEL resolves to 0,
which is not identical to any named threshold of the LogLevel scale
(TRACE/ALL = 1, INFO = 30, WARN = 40, ERROR = 50, PANIC = 60,
NONE = 70), refuting the claim that every legacy alias resolves to a
threshold value. -/
theorem default_level_not_threshold :
    DEFAULT_LEVEL = 0 ∧ isNamedThreshold DEFAULT_LEVEL = false := by decide

/-- C6 (amended): the LogLevel scale has exactly the named thresholds
TRACE = 1, INFO = 30, WARN = 40, ERROR = 50, PANIC = 60, NONE = 70 in
strictly increasing order; ALL and TRACE are numerically identical
(both 1) and are synonyms everywhere including level-to-name lookup;
every legacy alias except DEFAULT_LEVEL resolves to a value identical
to a named threshold; DEFAULT_LEVEL resolves to 0, below TRACE and
identical to no threshold. -/
theorem log_level_scale_amended :
    LOG_LEVEL_TRACE = 1 ∧ LOG_LEVEL_INFO = 30 ∧ LOG_LEVEL_WARN = 40 ∧
    LOG_LEVEL_ERROR = 50 ∧ LOG_LEVEL_PANIC = 60 ∧ LOG_LEVEL_NONE = 70 ∧
    LOG_LEVEL_TRACE < LOG_LEVEL_INFO ∧ LOG_LEVEL_INFO < LOG_LEVEL_WARN ∧
    LOG_LEVEL_WARN < LOG_LEVEL_ERROR ∧ LOG_LEVEL_ERROR < LOG_LEVEL_PANIC ∧
    LOG_LEVEL_PANIC < LOG_LEVEL_NONE ∧
    LOG_LEVEL_ALL = 1 ∧ LOG_LEVEL_ALL = LOG_LEVEL_TRACE ∧
    log_level_name LOG_LEVEL_ALL = log_level_name LOG_LEVEL_TRACE ∧
    ALL_LEVEL = LOG_LEVEL_TRACE ∧ TRACE_LEVEL = LOG_LEVEL_TRACE ∧
    LOG_LEVEL = LOG_LEVEL_TRACE ∧ DEBUG_LEVEL = LOG_LEVEL_TRACE ∧
    INFO_LEVEL = LOG_LEVEL_INFO ∧ WARN_LEVEL = LOG_LEVEL_WARN ∧
    ERROR_LEVEL = LOG_LEVEL_ERROR ∧ PANIC_LEVEL = LOG_LEVEL_PANIC ∧
    NO_LOG_LEVEL = LOG_LEVEL_NONE ∧
    isNamedThreshold ALL_LEVEL = true ∧ isNamedThreshold TRACE_LEVEL = true ∧
    isNamedThreshold LOG_LEVEL = true ∧ isNamedThreshold DEBUG_LEVEL = true ∧
    isNamedThreshold INFO_LEVEL = true ∧ isNamedThreshold WARN_LEVEL = true ∧
    isNamedThreshold ERROR_LEVEL = true ∧ isNamedThreshold PANIC_LEVEL = true ∧
    isNamedThreshold NO_LOG_LEVEL = true ∧
    DEFAULT_LEVEL = 0 ∧ DEFAULT_LEVEL < LOG_LEVEL_TRACE := by decide

/-- C7: every emission operation whose corresponding backend callback
is unset is a pure no-op producing no events at all; in particular
log_message with no message callback registered produces nothing even
when a write callback is registered — it never falls back to the write
callback — and with no callbacks registered at all, none of the wrapper
macros produces any backend output. -/
theorem unset_callbacks_noop (cfg : BuildConfig) (level maxLength size flags : Nat)
    (category : Option String) (attr : LogAttributes) (file : Option String)
    (line : Nat) (func : Option String) (now : Nat) (rendered : List Char)
    (data str : List Nat) :
    (∀ b : Backend, b.msgCb = false →
      log_message maxLength level category attr rendered b = []) ∧
    (∀ b : Backend, b.writeCb = false →
      log_write level category data b = [] ∧
      log_printf maxLength level category rendered b = [] ∧
      log_dump level category data size flags b = []) ∧
    (∀ b : Backend, b.msgCb = false → b.writeCb = false →
      (LOG_C cfg level category file line func now rendered b).filter
        LogEvent.isOutput = [] ∧
      LOG_WRITE_C cfg level category data b = [] ∧
      LOG_PRINT_C cfg level category str b = [] ∧
      LOG_PRINTF_C cfg level category rendered b = [] ∧
      LOG_DUMP_C cfg level category data size b = []) := by
  refine ⟨?_, ?_, ?_⟩
  · intro b hm; simp [log_message, hm]
  · intro b hw
    exact ⟨by simp [log_write, hw], by simp [log_printf, hw], by simp [log_dump, hw]⟩
  · intro b hm hw
    by_cases hle : cfg.logCompileTimeLevel ≤ level <;>
      simp [LOG_C, LOG_WRITE_C, LOG_PRINT_C, LOG_PRINTF_C, LOG_DUMP_C,
        log_message, log_write, log_printf, log_dump, LogEvent.isOutput, hm, hw, hle]

/-- C7 witness: at floor ALL and level INFO — log_message with the
message callback unset but the write callback set produces nothing (no
fallback), and with no callbacks at all every emission macro produces
no output. -/
theorem unset_callbacks_noop_witness :
    log_message 160 30 (some "net.tcp") ⟨24, 0, none, 0, none, 5⟩ "hi".toList
      ⟨false, true, none⟩ = [] ∧
    (LOG_C ⟨1, 160, false⟩ 30 (some "net.tcp") none 0 none 5 "hi".toList
      ⟨false, false, none⟩).filter LogEvent.isOutput = [] ∧
    LOG_WRITE_C ⟨1, 160, false⟩ 30 (some "net.tcp") [1, 2]
      ⟨false, false, none⟩ = [] ∧
    LOG_PRINT_C ⟨1, 160, false⟩ 30 (some "net.tcp") [104, 105]
      ⟨false, false, none⟩ = [] ∧
    LOG_PRINTF_C ⟨1, 160, false⟩ 30 (some "net.tcp") "hi".toList
      ⟨false, false, none⟩ = [] ∧
    LOG_DUMP_C ⟨1, 160, false⟩ 30 (some "net.tcp") [1, 2] 2
      ⟨false, false, none⟩ = [] := by
  have h := unset_callbacks_noop ⟨1, 160, false⟩ 30 160 2 0 (some "net.tcp")
    ⟨24, 0, none, 0, none, 5⟩ none 0 none 5 "hi".toList [1, 2] [104, 105]
  have h3 := h.2.2 ⟨false, false, none⟩ rfl rfl
  exact ⟨h.1 ⟨false, true, none⟩ rfl, h3.1, h3.2.1, h3.2.2.1, h3.2.2.2.1, h3.2.2.2.2⟩

/-- C8: PANIC first performs the PANIC-level logging attempt (exactly
the LOG macro's events, present best-effort for every backend
registration including none) and then unconditionally appends the
transfer of control to the fatal-path hook carrying the caller's error
code; the transfer is the final event — nothing follows it, matching a
hook that never returns — and no transfer occurs during the logging
part. -/
theorem panic_logs_then_transfers (cfg : BuildConfig) (code : Nat)
    (category : Option String) (file : Option String) (line : Nat)
    (func : Option String) (now : Nat) (rendered : List Char) (b : Backend) :
    PANIC cfg code category file line func now rendered b =
      LOG_C cfg LOG_LEVEL_PANIC category file line func now rendered b ++
        [LogEvent.panicTransfer code] ∧
    (PANIC cfg code category file line func now rendered b).getLast? =
      some (LogEvent.panicTransfer code) ∧
    (∀ c, LogEvent.panicTransfer c ∉
      LOG_C cfg LOG_LEVEL_PANIC category file line func now rendered b) := by
  refine ⟨rfl, ?_, ?_⟩
  · exact List.getLast?_concat _
  · intro c
    by_cases hle : cfg.logCompileTimeLevel ≤ LOG_LEVEL_PANIC <;>
      by_cases hm : b.msgCb <;>
        simp [LOG_C, log_message, hle, hm]

/-- C8 witness: at the default floor with no backend registered, the
PANIC trace still ends with the transfer carrying error code 130, and
the logging part that precedes it contains no transfer. -/
theorem panic_logs_then_transfers_witness :
    (PANIC ⟨1, 160, false⟩ 130 (some "sys") none 0 none 5 "oops".toList
      ⟨false, false, none⟩).getLast? = some (LogEvent.panicTransfer 130) ∧
    LogEvent.panicTransfer 130 ∉
      LOG_C ⟨1, 160, false⟩ LOG_LEVEL_PANIC (some "sys") none 0 none 5
        "oops".toList ⟨false, false, none⟩ := by
  have h := panic_logs_then_transfers ⟨1, 160, false⟩ 130 (some "sys") none 0
    none 5 "oops".toList ⟨false, false, none⟩
  exact ⟨h.2.1, h.2.2 130⟩

/-- C9: every LogAttributes record built by _LOG_INIT_ATTR has its size
field set to sizeof(LogAttributes) unconditionally (and flags 0), and
when LOG_INCLUDE_SOURCE_INFO is not defined the file and function
fields are NULL and the line field is 0, regardless of the call site's
actual file, line and function. -/
theorem log_attr_size_unconditional (cfg : BuildConfig) (file : Option String)
    (line : Nat) (func : Option String) (now : Nat) :
    (_LOG_INIT_ATTR cfg file line func now).size = sizeofLogAttributes ∧
    (_LOG_INIT_ATTR cfg file line func now).flags = 0 ∧
    (cfg.logIncludeSourceInfo = false →
      (_LOG_INIT_ATTR cfg file line func now).file = none ∧
      (_LOG_INIT_ATTR cfg file line func now).function = none ∧
      (_LOG_INIT_ATTR cfg file line func now).line = 0) := by
  refine ⟨rfl, rfl, ?_⟩
  intro h
  simp [_LOG_INIT_ATTR, _LOG_SOURCE_INFO, log_init_attr, h]

/-- C9 witness: with source info disabled and a call site that does
carry a file name, line number and function name, the built record has
size = sizeof(LogAttributes) and null/zero source fields; with source
info enabled the size field is the same constant. -/
theorem log_attr_size_unconditional_witness :
    (_LOG_INIT_ATTR ⟨1, 160, false⟩ (some "wifi.c") 42 (some "connect") 5).size =
      sizeofLogAttributes ∧
    (_LOG_INIT_ATTR ⟨1, 160, true⟩ (some "wifi.c") 42 (some "connect") 5).size =
      sizeofLogAttributes ∧
    (_LOG_INIT_ATTR ⟨1, 160, false⟩ (some "wifi.c") 42 (some "connect") 5).file =
      none ∧
    (_LOG_INIT_ATTR ⟨1, 160, false⟩ (some "wifi.c") 42 (some "connect") 5).function =
      none ∧
    (_LOG_INIT_ATTR ⟨1, 160, false⟩ (some "wifi.c") 42 (some "connect") 5).line = 0 := by
  have h1 := log_attr_size_unconditional ⟨1, 160, false⟩ (some "wifi.c") 42
    (some "connect") 5
  have h2 := log_attr_size_unconditional ⟨1, 160, true⟩ (some "wifi.c") 42
    (some "connect") 5
  have h3 := h1.2.2 rfl
  exact ⟨h1.1, h2.1, h3.1, h3.2.1, h3.2.2⟩

/-- C10: when the build does not define LOG_COMPILE_TIME_LEVEL it
defaults to LOG_LEVEL_ALL = 1, so every call site at every named
emittable level (ALL/TRACE, INFO, WARN, ERROR, PANIC) passes the
compile-time stage-1 filter: under the default floor, LOG_C always
executes its guarded body (the trace is never empty), for every
category, source location, message and backend. -/
theorem default_compile_time_level_all :
    LOG_COMPILE_TIME_LEVEL none = LOG_LEVEL_ALL ∧ LOG_LEVEL_ALL = 1 ∧
    (∀ level ∈ [LOG_LEVEL_ALL, LOG_LEVEL_TRACE, LOG_LEVEL_INFO, LOG_LEVEL_WARN,
        LOG_LEVEL_ERROR, LOG_LEVEL_PANIC],
      LOG_COMPILE_TIME_LEVEL none ≤ level ∧
      ∀ (maxLength : Nat) (inc : Bool) (category file : Option String)
        (line : Nat) (func : Option String) (now : Nat) (rendered : List Char)
        (b : Backend),
        LOG_C ⟨LOG_COMPILE_TIME_LEVEL none, maxLength, inc⟩ level category file
          line func now rendered b ≠ []) := by
  refine ⟨rfl, rfl, ?_⟩
  intro level hlevel
  have h1 : 1 ≤ level := by
    simp [LOG_LEVEL_ALL, LOG_LEVEL_TRACE, LOG_LEVEL_INFO, LOG_LEVEL_WARN,
      LOG_LEVEL_ERROR, LOG_LEVEL_PANIC] at hlevel
    omega
  refine ⟨h1, ?_⟩
  intro maxLength inc category file line func now rendered b
  have h0 : LOG_COMPILE_TIME_LEVEL none ≤ level := h1
  simp only [LOG_C]
  rw [if_pos h0]
  exact List.cons_ne_nil _ _

/-- C10 witness: under the defaulted floor, a TRACE = 1 call site with
no backend registered is still not stripped — its trace is non-empty
(the attribute construction happens). -/
theorem default_compile_time_level_all_witness :
    LOG_C ⟨LOG_COMPILE_TIME_LEVEL none, 160, false⟩ LOG_LEVEL_TRACE
      (some "net.tcp") none 0 none 5 "hi".toList ⟨false, false, none⟩ ≠ [] :=
  (default_compile_time_level_all.2.2 LOG_LEVEL_TRACE (by decide)).2 160 false
    (some "net.tcp") none 0 none 5 "hi".toList ⟨false, false, none⟩

end Logging
